import Mathlib

/-!
Verification of the rx-image-viewer reactive pipeline.

The repository is a TypeScript/RxJS image browser.  This file gives a
shallow embedding of the pure core of its pipeline, translated from
`src/src/index.ts` (the primary variant) and the unnamed companion files:

* the view-state reducer (`scan` callback of `currentImageChange$`),
* the change filter (`indexChanged || categoryChanged`),
* the category fetch with its retry policy (`categoryChange$`,
  `getCategoryImageUrlsWithPotentialErrors`),
* the image preloading pipeline (`preloadImageUrlOrFallback`), and
* the `switchMap` latest-wins semantics, modelled with a generation
  counter as suggested by the design notes of the specification.

Randomness (`Math.random`), network results and image-load events are
modelled as explicit environment inputs (an outcome per attempt), so every
definition is an executable total function of its environment.
-/

namespace RxImageViewer

/-- Enum `UserAction` from the source: `Next`, `Previous`, `ChangeCategory`. -/
inductive UserAction where
  | next
  | previous
  | changeCategory
deriving DecidableEq, Repr

/-- Structure `CategoryData` from the source: `{ name: string; imageUrls: string[] }`. -/
structure CategoryData where
  name : String
  imageUrls : List String
deriving DecidableEq, Repr

/-- Constant `START_INDEX = 0` from the source. -/
def START_INDEX : Int := 0

/-- Accumulated state of the `scan` stage of `currentImageChange$`.
The seed is `{ index: START_INDEX }` cast to the full type, so
`categoryData` is absent there; we model it with `Option`. -/
structure ScanState where
  index : Int
  categoryData : Option CategoryData
  indexChanged : Bool
  categoryChanged : Bool
deriving DecidableEq, Repr

/-- The seed of the `scan`: `{ index: START_INDEX }` (no category yet). -/
def initialState : ScanState :=
  { index := START_INDEX, categoryData := none,
    indexChanged := false, categoryChanged := false }

/-- Function `getNewBoundedIndex` from the `scan` callback:
`delta = actionCode === Next ? 1 : -1;`
`Math.min(Math.max(oldIndex + delta, START_INDEX), imageUrls.length - 1)`. -/
def getNewBoundedIndex (actionCode : UserAction) (oldIndex : Int)
    (newCategory : CategoryData) : Int :=
  let delta : Int := if actionCode = UserAction.next then 1 else -1
  let newIndex := oldIndex + delta
  min (max newIndex START_INDEX) ((newCategory.imageUrls.length : Int) - 1)

/-- The `scan` callback of `currentImageChange$`: from the accumulated state
and the incoming `(actionCode, newCategory)` pair it produces the next
state.  `indexChanged` is `oldIndex !== newIndex` and `categoryChanged` is
`oldCategoryData?.name !== newCategory.name` (true when the old category is
absent). -/
def scanStep (currentAccumulatedState : ScanState)
    (newIncomingState : UserAction × CategoryData) : ScanState :=
  let actionCode := newIncomingState.1
  let newCategory := newIncomingState.2
  let oldIndex := currentAccumulatedState.index
  let oldCategoryData := currentAccumulatedState.categoryData
  let newIndex :=
    if actionCode = UserAction.changeCategory then START_INDEX
    else getNewBoundedIndex actionCode oldIndex newCategory
  { index := newIndex
    categoryData := some newCategory
    indexChanged := oldIndex != newIndex
    categoryChanged := (oldCategoryData.map CategoryData.name) != some newCategory.name }

/-- The `filter` stage after the `scan`:
`filter(({indexChanged, categoryChanged}) => indexChanged || categoryChanged)`. -/
def passesFilter (s : ScanState) : Bool :=
  s.indexChanged || s.categoryChanged

/-- Folding the reducer over a list of incoming pairs (the sequence of
`(action, category)` pairs delivered by `combineLatest`). -/
def scanFold (s : ScanState) (pairs : List (UserAction × CategoryData)) : ScanState :=
  pairs.foldl scanStep s

/-- A state `s` holds the reducer's index invariant for a category `c`:
the index lies in `[0, len(c.imageUrls) - 1]`. -/
def indexInRange (s : ScanState) (c : CategoryData) : Prop :=
  0 ≤ s.index ∧ s.index ≤ (c.imageUrls.length : Int) - 1

lemma scanStep_index_in_range (s : ScanState) (a : UserAction) (c : CategoryData)
    (hc : c.imageUrls ≠ []) : indexInRange (scanStep s (a, c)) c := by
  have hlen : 1 ≤ (c.imageUrls.length : Int) := by
    have := List.length_pos.mpr hc
    omega
  unfold indexInRange scanStep getNewBoundedIndex START_INDEX
  by_cases h : a = UserAction.changeCategory <;> simp [h] <;> omega

lemma scanFold_index_in_range (c : CategoryData) (hc : c.imageUrls ≠ [])
    (pairs : List (UserAction × CategoryData)) (hpairs : ∀ p ∈ pairs, p.2 = c)
    (s : ScanState) (hs : indexInRange s c) :
    indexInRange (scanFold s pairs) c := by
  induction pairs generalizing s with
  | nil => simpa [scanFold] using hs
  | cons p ps ih =>
      have hp : p.2 = c := hpairs p (List.mem_cons_self p ps)
      have hrest : ∀ q ∈ ps, q.2 = c := fun q hq => hpairs q (List.mem_cons_of_mem p hq)
      have hstep : indexInRange (scanStep s p) c := by
        have := scanStep_index_in_range s p.1 c hc
        rwa [show (p.1, c) = p by rw [← hp]] at this
      simpa [scanFold] using ih hrest (scanStep s p) hstep

/-- Claim C1. For every state whose index already lies in
`[0, len(c.imageLocators) - 1]` (in particular every state reachable with
the fixed non-empty category `c`, starting from the seed index 0), applying
any sequence of `Next`/`Previous` actions paired with `c` keeps the index
inside `[0, len(c.imageLocators) - 1]` after each transition. -/
theorem next_previous_index_stays_in_bounds (c : CategoryData)
    (hc : c.imageUrls ≠ []) (acts : List UserAction)
    (hacts : ∀ a ∈ acts, a = UserAction.next ∨ a = UserAction.previous)
    (s : ScanState) (hs : indexInRange s c) :
    indexInRange (scanFold s (acts.map (fun a => (a, c)))) c := by
  refine scanFold_index_in_range c hc _ ?_ s hs
  intro p hp
  rcases List.mem_map.mp hp with ⟨a, _, rfl⟩
  rfl

/-- Witness for C1 at a concrete input: category with three locators,
three `Next` actions then one `Previous` from the seed state. -/
theorem next_previous_index_stays_in_bounds_witness :
    indexInRange
      (scanFold initialState
        ([UserAction.next, UserAction.next, UserAction.next,
          UserAction.previous].map (fun a => (a, ⟨"cats", ["a", "b", "c"]⟩))))
      ⟨"cats", ["a", "b", "c"]⟩ := by
  refine next_previous_index_stays_in_bounds ⟨"cats", ["a", "b", "c"]⟩
    (by decide) _ ?_ initialState ?_
  · intro a ha
    fin_cases ha <;> simp
  · constructor <;> simp [initialState, START_INDEX]

/-- Claim C9. Applying a `ChangeCategory` action always yields a state with
index 0 (`START_INDEX`), regardless of the prior state and of the
category result paired with it. -/
theorem changeCategory_resets_index_to_zero (s : ScanState) (c : CategoryData) :
    (scanStep s (UserAction.changeCategory, c)).index = 0 := by
  simp [scanStep, START_INDEX]

/-! ## Downstream effects of the filtered pipeline

After the `filter`, a `tap` updates the counter text
(`` `${index}/${categoryData?.imageUrls.length - 1}` ``), shows the loading
indicator and clears the current image source, and the `switchMap` starts a
preload of `categoryData.imageUrls[index]`.  We record those observable
effects per state that passes the filter. -/

/-- JavaScript array indexing `urls[i]`: `undefined` (here `none`) for a
negative or out-of-range index. -/
def jsIndexGet (urls : List String) (i : Int) : Option String :=
  if 0 ≤ i then urls.get? i.toNat else none

/-- The counter text written by the `tap`:
`` `${index}/${categoryData?.imageUrls.length - 1}` `` (when `categoryData`
is absent, the optional chaining yields `undefined - 1 = NaN`). -/
def counterTextOf (s : ScanState) : String :=
  match s.categoryData with
  | some c => toString s.index ++ "/" ++ toString ((c.imageUrls.length : Int) - 1)
  | none => toString s.index ++ "/NaN"

/-- The observable effects started for a state that passes the filter:
the Presenter counter update, the loading indicator, the cleared image
source, and the preload target handed to `preloadImageUrlOrFallback`. -/
structure Effect where
  counterText : String
  loaderVisible : Bool
  imageSrcCleared : Bool
  preloadUrl : Option String
deriving DecidableEq, Repr

def effectOf (s : ScanState) : Effect :=
  { counterText := counterTextOf s
    loaderVisible := true
    imageSrcCleared := true
    preloadUrl :=
      match s.categoryData with
      | some c => jsIndexGet c.imageUrls s.index
      | none => none }

/-- The successive outputs of the `scan` stage, one per incoming
`(action, category)` pair, starting from the accumulated state `s`. -/
def scanStatesFrom (s : ScanState) :
    List (UserAction × CategoryData) → List ScanState
  | [] => []
  | p :: ps => scanStep s p :: scanStatesFrom (scanStep s p) ps

/-- The effects the pipeline starts for a list of incoming pairs: the scan
outputs are passed through the `filter`, and only the surviving states
trigger the `tap`/`switchMap` effects. -/
def pipelineEffectsFrom (s : ScanState)
    (pairs : List (UserAction × CategoryData)) : List Effect :=
  ((scanStatesFrom s pairs).filter passesFilter).map effectOf

/-- Claim C4. A reduced state with `indexChanged = false` and
`categoryChanged = false` is filtered out before the effect stages: it
starts no preload and no Presenter update (the pipeline's effect list is
exactly that of the remaining inputs). -/
theorem no_change_state_triggers_no_effects (s : ScanState)
    (p : UserAction × CategoryData) (ps : List (UserAction × CategoryData))
    (h1 : (scanStep s p).indexChanged = false)
    (h2 : (scanStep s p).categoryChanged = false) :
    pipelineEffectsFrom s (p :: ps) = pipelineEffectsFrom (scanStep s p) ps := by
  simp [pipelineEffectsFrom, scanStatesFrom, passesFilter, h1, h2]

/-- Witness for C4: a `Next` action at the upper bound of a singleton
category changes nothing and contributes no effect. -/
theorem no_change_state_triggers_no_effects_witness :
    pipelineEffectsFrom ⟨0, some ⟨"cats", ["a"]⟩, false, false⟩
        [(UserAction.next, ⟨"cats", ["a"]⟩)]
      = pipelineEffectsFrom
          (scanStep ⟨0, some ⟨"cats", ["a"]⟩, false, false⟩
            (UserAction.next, ⟨"cats", ["a"]⟩)) [] :=
  no_change_state_triggers_no_effects _ _ _ (by decide) (by decide)

/-- Claim C10. Re-selecting the already-current category (a `ChangeCategory`
pair whose category name equals the current state's category name): at
index 0 the resulting state has both change flags `false` and is dropped
by the filter (no preload, no Presenter update); at a positive index the
index resets to 0 with `indexChanged = true`, so the state passes the
filter and triggers a reload. -/
theorem reselect_current_category_behavior (s : ScanState) (cd c : CategoryData)
    (hsome : s.categoryData = some cd) (hname : cd.name = c.name) :
    (s.index = 0 →
      (scanStep s (UserAction.changeCategory, c)).indexChanged = false ∧
      (scanStep s (UserAction.changeCategory, c)).categoryChanged = false ∧
      passesFilter (scanStep s (UserAction.changeCategory, c)) = false) ∧
    (0 < s.index →
      (scanStep s (UserAction.changeCategory, c)).index = 0 ∧
      (scanStep s (UserAction.changeCategory, c)).indexChanged = true ∧
      passesFilter (scanStep s (UserAction.changeCategory, c)) = true) := by
  constructor
  · intro h0
    simp [scanStep, passesFilter, hsome, hname, START_INDEX, h0]
  · intro hpos
    have hne : s.index ≠ 0 := by omega
    simp [scanStep, passesFilter, hsome, hname, START_INDEX, hne]

/-- Witness for C10: re-selecting `"cats"` at index 0 is suppressed by the
filter. -/
theorem reselect_current_category_behavior_witness :
    passesFilter
      (scanStep ⟨0, some ⟨"cats", ["a", "b"]⟩, true, false⟩
        (UserAction.changeCategory, ⟨"cats", ["a", "b"]⟩)) = false :=
  ((reselect_current_category_behavior _ ⟨"cats", ["a", "b"]⟩ _ rfl rfl).1 rfl).2.2

/-- Counterexample for C7: a `Next` action reaching the reducer with an
empty image-locator list produces index `-1` — a negative index, not the
claimed fallback to 0. -/
theorem empty_category_fallback_cex :
    (scanStep ⟨0, some ⟨"cats", ["a"]⟩, false, false⟩
        (UserAction.next, ⟨"empty", []⟩)).index = -1 ∧
    (scanStep ⟨0, some ⟨"cats", ["a"]⟩, false, false⟩
        (UserAction.next, ⟨"empty", []⟩)).index < 0 := by
  decide

/-- Claim C7, amended. If a `Next` or `Previous` action reaches the reducer
while the category's image-locator list is empty, the clamp
`min(max(index + delta, 0), length - 1)` evaluates to `-1` (the empty
list's length minus one): the reducer produces a negative index and raises
no "no content" signal; `NaN` is never produced since all quantities are
integers. -/
theorem empty_category_index_is_neg_one (s : ScanState) (a : UserAction)
    (c : CategoryData) (ha : a ≠ UserAction.changeCategory)
    (hc : c.imageUrls = []) :
    (scanStep s (a, c)).index = -1 := by
  simp only [scanStep, getNewBoundedIndex, START_INDEX, ha, if_false, hc,
    List.length_nil, Nat.cast_zero, zero_sub]
  omega

/-- Witness for C7's amended statement at a concrete input. -/
theorem empty_category_index_is_neg_one_witness :
    (scanStep ⟨2, some ⟨"cats", ["a", "b", "c"]⟩, false, false⟩
        (UserAction.previous, ⟨"empty", []⟩)).index = -1 :=
  empty_category_index_is_neg_one _ _ _ (by decide) rfl

/-! ## Category fetching: `getCategoryImageUrlsWithPotentialErrors` and
`categoryChange$`

Each subscription of `getCategoryImageUrlsWithPotentialErrors` performs one
attempt: either the artificial random error fires, or `fetch` rejects, or
it resolves with a list of image urls, in which case the result is written
to `sessionStorage` under the category name.  We model the per-attempt
nondeterminism (randomness, network) as an explicit `FetchOutcome` input,
and `sessionStorage` as an association list. -/

/-- The outcome of one category-fetch attempt (one subscription). -/
inductive FetchOutcome where
  | artificialError
  | fetchError (errorReason : String)
  | success (imageUrls : List String)
deriving DecidableEq, Repr

/-- What one attempt delivers to the subscriber: the emitted url list, or
the error string the code passes to `subscriber.error`. -/
def fetchOutcomeResult : FetchOutcome → Except String (List String)
  | .artificialError => .error "Artificial getCategoryImageUrls error"
  | .fetchError errorReason => .error ("getCategoryImageUrls error: " ++ errorReason)
  | .success imageUrls => .ok imageUrls

/-- Model of `sessionStorage.getItem`: lookup by key. -/
def cacheGet (cache : List (String × List String)) (k : String) :
    Option (List String) :=
  (cache.find? (fun e => e.1 = k)).map Prod.snd

/-- Model of `sessionStorage.setItem`: replace-by-key. -/
def cacheSet (cache : List (String × List String)) (k : String)
    (v : List String) : List (String × List String) :=
  (k, v) :: cache.filter (fun e => e.1 ≠ k)

/-- The observable behaviour of one subscription of
`getCategoryImageUrlsWithPotentialErrors`. -/
structure CategoryRequestResult where
  result : Except String (List String)
  cache : List (String × List String)
  sourceInvoked : Bool
deriving Repr

/-- One subscription of `getCategoryImageUrlsWithPotentialErrors`, with the
`sessionStorage` state passed explicitly.  The source function never calls
`sessionStorage.getItem`: every subscription unconditionally performs a
fresh attempt (artificial error, or `fetch`), so `sourceInvoked` is `true`
on every path; on success the result is written to the cache
(`sessionStorage.setItem(categoryName, ...)`). -/
def getCategoryImageUrlsWithPotentialErrors (categoryName : String)
    (cache : List (String × List String)) (outcome : FetchOutcome) :
    CategoryRequestResult :=
  match outcome with
  | .artificialError =>
      { result := fetchOutcomeResult .artificialError
        cache := cache
        sourceInvoked := true }
  | .fetchError errorReason =>
      { result := fetchOutcomeResult (.fetchError errorReason)
        cache := cache
        sourceInvoked := true }
  | .success imageUrls =>
      { result := fetchOutcomeResult (.success imageUrls)
        cache := cacheSet cache categoryName imageUrls
        sourceInvoked := true }

/-- Counterexample for C5: with a non-empty cached entry for `"cats"`
already present, a request for `"cats"` still invokes the source, and an
attempt failure yields an error instead of the cached list being emitted —
the cache is never consulted. -/
theorem cached_category_still_fetches_cex :
    cacheGet [("cats", ["a"])] "cats" = some ["a"] ∧
    ["a"] ≠ ([] : List String) ∧
    (getCategoryImageUrlsWithPotentialErrors "cats" [("cats", ["a"])]
        FetchOutcome.artificialError).sourceInvoked = true ∧
    (getCategoryImageUrlsWithPotentialErrors "cats" [("cats", ["a"])]
        FetchOutcome.artificialError).result ≠ .ok ["a"] := by
  refine ⟨rfl, by decide, rfl, ?_⟩
  intro h
  simp [getCategoryImageUrlsWithPotentialErrors, fetchOutcomeResult] at h

/-- Claim C5, amended. The per-session cache is write-only: every request
invokes the source regardless of the cache contents, the delivered result
is independent of the cache, and a successful fetch populates the cache
under the category name.  The cache is never consulted before fetching. -/
theorem category_cache_is_write_only (categoryName : String)
    (cache : List (String × List String)) (outcome : FetchOutcome)
    (imageUrls : List String) :
    (getCategoryImageUrlsWithPotentialErrors categoryName cache outcome).sourceInvoked
        = true ∧
    (getCategoryImageUrlsWithPotentialErrors categoryName cache outcome).result
        = (getCategoryImageUrlsWithPotentialErrors categoryName [] outcome).result ∧
    cacheGet
        (getCategoryImageUrlsWithPotentialErrors categoryName cache
          (.success imageUrls)).cache categoryName
        = some imageUrls := by
  refine ⟨?_, ?_, ?_⟩
  · cases outcome <;> rfl
  · cases outcome <;> rfl
  · simp [getCategoryImageUrlsWithPotentialErrors, cacheSet, cacheGet, List.find?]

/-! ### `categoryChange$`: the retry policy and the empty-list check

In `src/src/index.ts` the per-category pipeline is
`getCategoryImageUrlsWithPotentialErrors(c).pipe(retry(3), map(...))` where
the `map` throws `` `No image urls loaded for ${c}` `` on an empty list.
`retry(n)` resubscribes up to `n` more times after an error and then
re-propagates the last error; each resubscription consumes the next
environment outcome. -/

/-- The `retry(n)` operator over an environment of per-subscription
attempt results: `retryRun attempt k r` subscribes starting at attempt
`k` with `r` resubscriptions left. -/
def retryRun {α : Type} (attempt : Nat → Except String α) :
    Nat → Nat → Except String α
  | k, 0 => attempt k
  | k, r + 1 =>
    match attempt k with
    | .ok v => .ok v
    | .error _ => retryRun attempt (k + 1) r

/-- The retry count literal of `categoryChange$` in `src/src/index.ts`:
`retry(3)`. -/
def categoryRetryCount : Nat := 3

/-- The per-category result of `categoryChange$`: the fetch with
`retry(3)`, then the `map` that throws `No image urls loaded for {c}` when
the emitted list is empty and otherwise emits `{name, imageUrls}`. -/
def categoryChangeResult (newCategory : String)
    (outcomes : Nat → FetchOutcome) : Except String CategoryData :=
  match retryRun (fun k => fetchOutcomeResult (outcomes k)) 0 categoryRetryCount with
  | .error e => .error e
  | .ok imageUrls =>
      if imageUrls.length = 0 then
        .error ("No image urls loaded for " ++ newCategory)
      else .ok ⟨newCategory, imageUrls⟩

/-- Counterexample for C6: the first attempt succeeds with an empty list;
the error surfaces immediately even though the retry budget (3) is intact
and the very next attempt would have delivered `["a"]` — the empty-list
check sits after `retry(3)`, so an empty result is never retried. -/
theorem empty_result_not_retried_cex :
    categoryChangeResult "cats"
        (fun k => if k = 0 then FetchOutcome.success [] else FetchOutcome.success ["a"])
      = .error "No image urls loaded for cats" ∧
    fetchOutcomeResult
        ((fun k => if k = 0 then FetchOutcome.success [] else FetchOutcome.success ["a"]) 1)
      = .ok ["a"] ∧
    categoryRetryCount = 3 := by
  exact ⟨rfl, rfl, rfl⟩

/-- Claim C6, amended. A fetch attempt that succeeds but returns an empty
image-locator list is not retried: the empty-list check runs after
`retry(3)`, so the error `No image urls loaded for {category}` surfaces
immediately on the first successful-but-empty attempt, regardless of the
remaining retry budget (only fetch failures are retried). -/
theorem empty_result_surfaces_error_immediately (newCategory : String)
    (outcomes : Nat → FetchOutcome)
    (h : outcomes 0 = FetchOutcome.success []) :
    categoryChangeResult newCategory outcomes
      = .error ("No image urls loaded for " ++ newCategory) := by
  simp [categoryChangeResult, categoryRetryCount, retryRun, h, fetchOutcomeResult]

/-- Witness for C6's amended statement at a concrete input. -/
theorem empty_result_surfaces_error_immediately_witness :
    categoryChangeResult "dogs" (fun _ => FetchOutcome.success [])
      = .error "No image urls loaded for dogs" :=
  empty_result_surfaces_error_immediately "dogs" _ rfl

/-- Counterexample for C8: four consecutive fetch failures with the
hardcoded budget `retry(3)` surface the underlying fetch error, not a
no-content error: the terminal error is the artificial fetch error string,
which differs from the code's no-content error for the category. -/
theorem four_failures_surface_fetch_error_cex :
    categoryChangeResult "cats" (fun _ => FetchOutcome.artificialError)
      = .error "Artificial getCategoryImageUrls error" ∧
    categoryChangeResult "cats" (fun _ => FetchOutcome.artificialError)
      ≠ .error "No image urls loaded for cats" ∧
    categoryChangeResult "cats" (fun _ => FetchOutcome.artificialError)
      ≠ .error "no images available for category cats" := by
  refine ⟨rfl, ?_, ?_⟩ <;> intro h <;>
    exact absurd (Except.error.inj h) (by decide)

/-- Claim C8, amended. Retries on the same identifier are bounded by the
hardcoded count 3 (`retry(3)` — not a configuration option; the other
variant of the source hardcodes unbounded retries instead): failing twice
and then succeeding with a non-empty list still resolves the category,
while failing on all four attempts surfaces the final fetch error itself
as the terminal error (not a distinct no-content error). -/
theorem category_retry_bounded_at_three (newCategory : String)
    (imageUrls : List String) (h : imageUrls ≠ []) :
    categoryChangeResult newCategory
        (fun k => if k < 2 then FetchOutcome.artificialError
                  else FetchOutcome.success imageUrls)
      = .ok ⟨newCategory, imageUrls⟩ ∧
    categoryChangeResult newCategory (fun _ => FetchOutcome.artificialError)
      = .error "Artificial getCategoryImageUrls error" := by
  constructor
  · have hlen : imageUrls.length ≠ 0 := by
      simpa [List.length_eq_zero] using h
    simp [categoryChangeResult, categoryRetryCount, retryRun, fetchOutcomeResult, hlen]
  · rfl

/-- Witness for C8's amended statement at a concrete input. -/
theorem category_retry_bounded_at_three_witness :
    categoryChangeResult "cats"
        (fun k => if k < 2 then FetchOutcome.artificialError
                  else FetchOutcome.success ["a", "b"])
      = .ok ⟨"cats", ["a", "b"]⟩ ∧
    categoryChangeResult "cats" (fun _ => FetchOutcome.artificialError)
      = .error "Artificial getCategoryImageUrls error" :=
  category_retry_bounded_at_three "cats" ["a", "b"] (by decide)

/-! ## Image preloading: `preloadImageUrlOrFallback`

`loadImageElementUrlWithPossibleErrors` fires either the artificial random
error, the image element's `onerror`, or `onload` followed by `next(url)`
after an artificial delay; `timeout({first: LOADING_TIMEOUT_MS})` turns a
late first emission into an error.  We model one attempt's behaviour as a
`PreloadEvent` and the whole pipeline
`timeout({first: T1}) → retry(2) → catchError(() => of(FALLBACK))` over an
environment of per-attempt events. -/

def LOADING_TIMEOUT_MS : Nat := 200

def FALLBACK_IMAGE_URL : String := "/images/error.png"

/-- The behaviour of one subscription of the image-loading observable. -/
inductive PreloadEvent where
  | artificialError
  | imageError
  | loaded (artificialLoadingDurationMs : Nat)
deriving DecidableEq, Repr

/-- One attempt of loading `url`, after applying
`timeout({first: LOADING_TIMEOUT_MS})`: the artificial error and the image
element's `onerror` propagate as errors; a load whose artificial delay
reaches the timeout is converted into a timeout error; otherwise the url
itself is emitted (`observer.next(url)`). -/
def preloadAttemptResult (url : String) : PreloadEvent → Except String String
  | .artificialError => .error "Artificial preload error"
  | .imageError => .error ("image load error: " ++ url)
  | .loaded d =>
      if d < LOADING_TIMEOUT_MS then .ok url else .error "Timeout has occurred"

/-- The retry count literal of `preloadImageUrlOrFallback`: `retry(2)`. -/
def preloadRetryCount : Nat := 2

/-- Definition `preloadImageUrlOrFallback`: the attempt with its first-value timeout,
retried twice, and `catchError` substituting the fixed fallback locator. -/
def preloadImageUrlOrFallback (url : String) (events : Nat → PreloadEvent) : String :=
  match retryRun (fun k => preloadAttemptResult url (events k)) 0 preloadRetryCount with
  | .ok u => u
  | .error _ => FALLBACK_IMAGE_URL

lemma preloadAttemptResult_ok (url : String) (e : PreloadEvent) (u : String)
    (h : preloadAttemptResult url e = .ok u) : u = url := by
  cases e with
  | artificialError => exact absurd h (by simp [preloadAttemptResult])
  | imageError => exact absurd h (by simp [preloadAttemptResult])
  | loaded d =>
      by_cases hd : d < LOADING_TIMEOUT_MS
      · simp only [preloadAttemptResult, if_pos hd, Except.ok.injEq] at h
        exact h.symm
      · simp [preloadAttemptResult, if_neg hd] at h

lemma retryRun_preload_ok (url : String) (events : Nat → PreloadEvent) :
    ∀ (r k : Nat) (u : String),
      retryRun (fun k => preloadAttemptResult url (events k)) k r = .ok u → u = url := by
  intro r
  induction r with
  | zero =>
      intro k v h
      exact preloadAttemptResult_ok url (events k) v h
  | succ r ih =>
      intro k v h
      simp only [retryRun] at h
      revert h
      cases hk : preloadAttemptResult url (events k) with
      | ok w =>
          intro h
          simp only [Except.ok.injEq] at h
          rw [← h]
          exact preloadAttemptResult_ok url (events k) w hk
      | error e =>
          intro h
          exact ih (k + 1) v h

/-- Claim C3. For every input locator and every environment of per-attempt
behaviours, `preloadImageUrlOrFallback` is a total function delivering
exactly one value, which is either the real preloaded locator (the input
url) or the fixed fallback locator; errors never propagate past the
`catchError`, and the fallback branch itself always succeeds. -/
theorem preload_terminates_with_real_or_fallback (url : String)
    (events : Nat → PreloadEvent) :
    preloadImageUrlOrFallback url events = url ∨
    preloadImageUrlOrFallback url events = FALLBACK_IMAGE_URL := by
  unfold preloadImageUrlOrFallback
  cases h : retryRun (fun k => preloadAttemptResult url (events k)) 0 preloadRetryCount with
  | ok u =>
      left
      simpa using retryRun_preload_ok url events preloadRetryCount 0 u h
  | error e =>
      right
      rfl

/-! ## `switchMap` latest-wins semantics

The accepted view states flow into
`switchMap(({index, categoryData}) => preloadImageUrlOrFallback(...))`,
whose `tap` then applies the Presenter update (`src`, `alt`, hiding the
loader).  `switchMap` unsubscribes the previous inner observable whenever
a new accepted state arrives, so a stale preload's result can never be
delivered.  Following the specification's own design note, we model this
with a generation counter: each accepted state bumps the generation, and a
preload completion tagged with a stale generation is discarded. -/

/-- An accepted view state entering the `switchMap` stage. -/
structure AcceptedState where
  index : Int
  categoryData : CategoryData
deriving DecidableEq, Repr

/-- The Presenter update applied after a preload resolves:
`currentImageElement.src = currentImageUrl` and
`` currentImageElement.alt = `${categoryData.name}-${index}` ``. -/
structure PresenterUpdate where
  src : String
  alt : String
deriving DecidableEq, Repr

def presenterUpdateOf (s : AcceptedState) (imageUrl : String) : PresenterUpdate :=
  { src := imageUrl, alt := s.categoryData.name ++ "-" ++ toString s.index }

/-- Events at the `switchMap` boundary: a new accepted state arrives, or
the preload started for generation `gen` completes with a locator. -/
inductive PipeEvent where
  | accept (s : AcceptedState)
  | resolve (gen : Nat) (imageUrl : String)
deriving DecidableEq, Repr

structure SwitchMapState where
  currentGen : Nat
  currentAccepted : Option AcceptedState
  delivered : List PresenterUpdate
deriving DecidableEq, Repr

def initialSwitchMapState : SwitchMapState :=
  { currentGen := 0, currentAccepted := none, delivered := [] }

/-- One step of the `switchMap` stage: accepting a state unsubscribes the
previous inner preload (generation bump) and records the new state; a
preload completion delivers its Presenter update only when its generation
is still current — a superseded preload's result is discarded. -/
def switchMapStep (st : SwitchMapState) (e : PipeEvent) : SwitchMapState :=
  match e with
  | .accept s =>
      { st with currentGen := st.currentGen + 1, currentAccepted := some s }
  | .resolve g imageUrl =>
      if g = st.currentGen then
        match st.currentAccepted with
        | some s => { st with delivered := st.delivered ++ [presenterUpdateOf s imageUrl] }
        | none => st
      else st

def switchMapRun (events : List PipeEvent) : SwitchMapState :=
  events.foldl switchMapStep initialSwitchMapState

/-- The most recently accepted state in a trace, if any. -/
def lastAcceptedFrom (o : Option AcceptedState) :
    List PipeEvent → Option AcceptedState
  | [] => o
  | .accept s :: es => lastAcceptedFrom (some s) es
  | .resolve _ _ :: es => lastAcceptedFrom o es

def lastAccepted (events : List PipeEvent) : Option AcceptedState :=
  lastAcceptedFrom none events

lemma switchMapStep_resolve_gen (st : SwitchMapState) (g : Nat) (u : String) :
    (switchMapStep st (.resolve g u)).currentGen = st.currentGen := by
  simp only [switchMapStep]
  split
  · cases st.currentAccepted <;> rfl
  · rfl

lemma switchMapStep_gen_le (st : SwitchMapState) (e : PipeEvent) :
    st.currentGen ≤ (switchMapStep st e).currentGen := by
  cases e with
  | accept s => exact Nat.le_succ _
  | resolve g u => rw [switchMapStep_resolve_gen]

lemma switchMapFold_gen_le (events : List PipeEvent) :
    ∀ st : SwitchMapState,
      st.currentGen ≤ (events.foldl switchMapStep st).currentGen := by
  induction events with
  | nil => intro st; simp
  | cons e es ih =>
      intro st
      exact le_trans (switchMapStep_gen_le st e) (ih (switchMapStep st e))

lemma switchMapStep_accepted (st : SwitchMapState) (e : PipeEvent) :
    (switchMapStep st e).currentAccepted =
      (match e with
       | .accept s => some s
       | .resolve _ _ => st.currentAccepted) := by
  cases e with
  | accept s => rfl
  | resolve g u =>
      simp only [switchMapStep]
      split
      · cases h : st.currentAccepted <;> simp [h]
      · rfl

lemma switchMapFold_accepted (events : List PipeEvent) :
    ∀ st : SwitchMapState,
      (events.foldl switchMapStep st).currentAccepted =
        lastAcceptedFrom st.currentAccepted events := by
  induction events with
  | nil => intro st; rfl
  | cons e es ih =>
      intro st
      cases e with
      | accept s =>
          simp only [List.foldl_cons, lastAcceptedFrom]
          rw [ih (switchMapStep st (.accept s))]
          rfl
      | resolve g u =>
          simp only [List.foldl_cons, lastAcceptedFrom]
          rw [ih (switchMapStep st (.resolve g u))]
          rw [switchMapStep_accepted]

/-- Claim C2. Latest-state-wins at the `switchMap` boundary.  Take any trace
in which some state `s2` is accepted after a prefix `t1`, followed by any
further events `t2`.  Then (i) a preload completion belonging to a
generation from the prefix (i.e. superseded by the acceptance of `s2`) is
discarded: it delivers no Presenter update; and (ii) a completion of the
current generation delivers exactly the Presenter update (image source and
alt text) of the most recently accepted state. -/
theorem stale_preload_never_delivered (t1 : List PipeEvent) (s2 : AcceptedState)
    (t2 : List PipeEvent) (g : Nat) (imageUrl : String)
    (hstale : g ≤ (switchMapRun t1).currentGen) :
    (switchMapStep (switchMapRun (t1 ++ PipeEvent.accept s2 :: t2))
        (PipeEvent.resolve g imageUrl)).delivered
      = (switchMapRun (t1 ++ PipeEvent.accept s2 :: t2)).delivered ∧
    ∀ s, lastAccepted (t1 ++ PipeEvent.accept s2 :: t2) = some s →
      (switchMapStep (switchMapRun (t1 ++ PipeEvent.accept s2 :: t2))
          (PipeEvent.resolve
            (switchMapRun (t1 ++ PipeEvent.accept s2 :: t2)).currentGen imageUrl)).delivered
        = (switchMapRun (t1 ++ PipeEvent.accept s2 :: t2)).delivered
            ++ [presenterUpdateOf s imageUrl] := by
  have hsplit : switchMapRun (t1 ++ PipeEvent.accept s2 :: t2)
      = t2.foldl switchMapStep (switchMapStep (switchMapRun t1) (.accept s2)) := by
    simp [switchMapRun, List.foldl_append]
  have hgen : g < (switchMapRun (t1 ++ PipeEvent.accept s2 :: t2)).currentGen := by
    rw [hsplit]
    have h1 : (switchMapStep (switchMapRun t1) (.accept s2)).currentGen
        = (switchMapRun t1).currentGen + 1 := rfl
    have h2 := switchMapFold_gen_le t2 (switchMapStep (switchMapRun t1) (.accept s2))
    omega
  constructor
  · simp only [switchMapStep]
    rw [if_neg (Nat.ne_of_lt hgen)]
  · intro s hs
    have haccepted : (switchMapRun (t1 ++ PipeEvent.accept s2 :: t2)).currentAccepted
        = some s := by
      rw [show switchMapRun (t1 ++ PipeEvent.accept s2 :: t2)
            = (t1 ++ PipeEvent.accept s2 :: t2).foldl switchMapStep initialSwitchMapState
          from rfl]
      rw [switchMapFold_accepted]
      exact hs
    simp only [switchMapStep]
    rw [haccepted]
    simp

/-- Witness for C2: after accepting a state for `"cats"` and then one for
`"dogs"`, a preload completion for the superseded `"cats"` generation
delivers nothing. -/
theorem stale_preload_never_delivered_witness :
    (switchMapStep
        (switchMapRun
          ([PipeEvent.accept ⟨0, ⟨"cats", ["a"]⟩⟩]
            ++ PipeEvent.accept ⟨0, ⟨"dogs", ["x"]⟩⟩ :: []))
        (PipeEvent.resolve 1 "a")).delivered
      = (switchMapRun
          ([PipeEvent.accept ⟨0, ⟨"cats", ["a"]⟩⟩]
            ++ PipeEvent.accept ⟨0, ⟨"dogs", ["x"]⟩⟩ :: [])).delivered :=
  (stale_preload_never_delivered [PipeEvent.accept ⟨0, ⟨"cats", ["a"]⟩⟩]
    ⟨0, ⟨"dogs", ["x"]⟩⟩ [] 1 "a" (by decide)).1

end RxImageViewer
